import Mathlib

/-!
Verification development for the qdrant-client extract consisting of
`qdrant_client/conversions/conversion.py` (the grpc <-> rest schema converter)
and `qdrant_client/migrate/migrate.py` (the collection migrator).

The Python source is shallowly embedded: every converter and every migrator
function is translated into an executable Lean definition.  Python dynamic
behaviour is made explicit:

* a call that raises becomes `Except.error`, with an error value carrying the
  same data the Python exception message interpolates;
* protobuf "oneof" groups (grpc `PointId`, grpc `Match`) are modelled with an
  explicit variant tag plus the field accessors that betterproto exposes
  (reading a member of an unset / differently-set oneof yields the proto
  default value: `0`, the empty string, `false`);
* Python class bodies bind methods by name, so when the source defines the
  same method name twice the later definition is the one actually bound.
  Such "effective" methods are embedded under the source name and the earlier,
  shadowed text is embedded under a `_shadowed` suffix.
-/

/-! ## Enumerations of the two wire formats -/

/-- grpc `Distance` enum.  Protobuf enums carry an unknown/zero member
(`UnknownDistance = 0`) besides the three named metrics. -/
inductive GrpcDistance where
  | UnknownDistance
  | Cosine
  | Euclid
  | Dot
  deriving DecidableEq, Repr

/-- rest (`http.models`) `Distance` enum. -/
inductive HttpDistance where
  | COSINE
  | EUCLID
  | DOT
  deriving DecidableEq, Repr

/-- grpc `UpdateStatus` enum, with the protobuf zero member. -/
inductive GrpcUpdateStatus where
  | UnknownUpdateStatus
  | Acknowledged
  | Completed
  deriving DecidableEq, Repr

/-- rest `UpdateStatus` enum. -/
inductive HttpUpdateStatus where
  | ACKNOWLEDGED
  | COMPLETED
  deriving DecidableEq, Repr

/-- grpc `CollectionStatus` enum, with the protobuf zero member. -/
inductive GrpcCollectionStatus where
  | UnknownCollectionStatus
  | Green
  | Yellow
  | Red
  deriving DecidableEq, Repr

/-- rest `CollectionStatus` enum. -/
inductive HttpCollectionStatus where
  | GREEN
  | YELLOW
  | RED
  deriving DecidableEq, Repr

/-- grpc `PayloadSchemaType` enum, with the protobuf zero member. -/
inductive GrpcPayloadSchemaType where
  | UnknownType
  | Keyword
  | Integer
  | Float
  | Geo
  deriving DecidableEq, Repr

/-- rest `PayloadSchemaType` enum. -/
inductive HttpPayloadSchemaType where
  | KEYWORD
  | INTEGER
  | FLOAT
  | GEO
  deriving DecidableEq, Repr

/-! ## Dynamic scalar values (rest `MatchValue.value` is `bool | int | str`) -/

/-- A Python scalar as stored in `http.MatchValue.value`
(`StrictBool`/`StrictInt`/`StrictStr` union). -/
inductive PyScalar where
  | bool (b : Bool)
  | int (n : Int)
  | str (s : String)
  deriving DecidableEq, Repr

/-- Python `isinstance(x, bool)`. -/
def PyScalar.isinstance_bool : PyScalar → Bool
  | .bool _ => true
  | _ => false

/-- Python `isinstance(x, http.StrictInt)`: an integer check.  Python `bool`
is a subclass of `int`, so boolean values also satisfy an integer isinstance
check; the source relies on testing `bool` first. -/
def PyScalar.isinstance_strict_int : PyScalar → Bool
  | .bool _ => true
  | .int _ => true
  | _ => false

/-- Python `isinstance(x, http.StrictStr)`: a string check. -/
def PyScalar.isinstance_strict_str : PyScalar → Bool
  | .str _ => true
  | _ => false

/-- Value extraction used after an `isinstance(..., bool)` guard succeeded
(the non-bool cases are unreachable under that guard). -/
def PyScalar.asBool : PyScalar → Bool
  | .bool b => b
  | _ => false

/-- Value extraction used after an integer isinstance guard succeeded. -/
def PyScalar.asInt : PyScalar → Int
  | .int n => n
  | .bool b => if b then 1 else 0
  | _ => 0

/-- Value extraction used after a string isinstance guard succeeded. -/
def PyScalar.asStr : PyScalar → String
  | .str s => s
  | _ => ""

/-! ## grpc `PointId` and `Match` (protobuf oneof groups) -/

/-- The oneof group of grpc `PointId`: unset, or exactly one of
`num` / `uuid` populated (possibly with the type's default value). -/
inductive GrpcPointIdVariant where
  | unset
  | num (n : Nat)
  | uuid (s : String)
  deriving DecidableEq, Repr

/-- grpc `PointId`. -/
structure GrpcPointId where
  variant : GrpcPointIdVariant := .unset
  deriving DecidableEq, Repr

/-- betterproto accessor `model.num`: the value when the `num` member is the
populated one, otherwise the proto default `0`. -/
def GrpcPointId.num (m : GrpcPointId) : Nat :=
  match m.variant with
  | .num n => n
  | _ => 0

/-- betterproto accessor `model.uuid`: the value when the `uuid` member is the
populated one, otherwise the proto default `""`. -/
def GrpcPointId.uuid (m : GrpcPointId) : String :=
  match m.variant with
  | .uuid s => s
  | _ => ""

/-- The oneof group of grpc `Match`. -/
inductive GrpcMatchVariant where
  | unset
  | keyword (s : String)
  | integer (n : Int)
  | boolean (b : Bool)
  deriving DecidableEq, Repr

/-- grpc `Match`. -/
structure GrpcMatch where
  variant : GrpcMatchVariant := .unset
  deriving DecidableEq, Repr

/-- betterproto accessor `model.keyword` (default `""`). -/
def GrpcMatch.keyword (m : GrpcMatch) : String :=
  match m.variant with
  | .keyword s => s
  | _ => ""

/-- betterproto accessor `model.integer` (default `0`). -/
def GrpcMatch.integer (m : GrpcMatch) : Int :=
  match m.variant with
  | .integer n => n
  | _ => 0

/-- betterproto accessor `model.boolean` (default `false`). -/
def GrpcMatch.boolean (m : GrpcMatch) : Bool :=
  match m.variant with
  | .boolean b => b
  | _ => false

/-! ## rest `Match`, `ExtendedPointId`, `UpdateResult` -/

/-- rest `Match` union: `MatchValue | MatchKeyword | MatchInteger`. -/
inductive HttpMatch where
  | matchValue (value : PyScalar)
  | matchKeyword (keyword : String)
  | matchInteger (integer : Int)
  deriving DecidableEq, Repr

/-- rest `ExtendedPointId = Union[StrictInt, StrictStr]`. -/
inductive HttpExtendedPointId where
  | int (n : Nat)
  | str (s : String)
  deriving DecidableEq, Repr

/-- rest `UpdateResult`. -/
structure HttpUpdateResult where
  operation_id : Nat
  status : HttpUpdateStatus
  deriving DecidableEq, Repr

/-- grpc `UpdateResult`. -/
structure GrpcUpdateResult where
  operation_id : Nat
  status : GrpcUpdateStatus
  deriving DecidableEq, Repr

/-! ## Conversion errors

Python raises exceptions whose messages interpolate the offending value
(`ValueError(f"invalid Match model: {model}")`, `NotImplementedError()`,
`AttributeError` on a missing attribute).  The embedding carries the same
data in a structured error type. -/

/-- The exceptions the embedded converters can raise. -/
inductive ConvError where
  | invalidPointId (model : GrpcPointId)
  | invalidMatch (model : GrpcMatch)
  | invalidRestMatch (model : HttpMatch)
  | notImplemented
  | attributeError (missingAttr : String)
  deriving DecidableEq, Repr

/-! ## Enum converters -/

/-- `GrpcToRest.convert_distance` (conversion.py lines 97-106). -/
def GrpcToRest.convert_distance (model : GrpcDistance) : Except ConvError HttpDistance :=
  match model with
  | .Cosine => .ok .COSINE
  | .Euclid => .ok .EUCLID
  | .Dot => .ok .DOT
  | .UnknownDistance => .error .notImplemented

/-- `RestToGrpc.convert_distance` (lines 521-530).  The three branches cover
every member of the rest enum, so the trailing `raise ValueError` in the
source is unreachable and the function is total. -/
def RestToGrpc.convert_distance (model : HttpDistance) : GrpcDistance :=
  match model with
  | .DOT => .Dot
  | .COSINE => .Cosine
  | .EUCLID => .Euclid

/-- `GrpcToRest.convert_update_status` (lines 112-119). -/
def GrpcToRest.convert_update_status (model : GrpcUpdateStatus) : Except ConvError HttpUpdateStatus :=
  match model with
  | .Acknowledged => .ok .ACKNOWLEDGED
  | .Completed => .ok .COMPLETED
  | .UnknownUpdateStatus => .error .notImplemented

/-- `RestToGrpc.convert_update_stats` (lines 360-367).  Total: the two
branches cover the rest enum, the trailing `raise` is unreachable. -/
def RestToGrpc.convert_update_stats (model : HttpUpdateStatus) : GrpcUpdateStatus :=
  match model with
  | .COMPLETED => .Completed
  | .ACKNOWLEDGED => .Acknowledged

/-- `RestToGrpc.convert_update_result` (lines 353-358). -/
def RestToGrpc.convert_update_result (model : HttpUpdateResult) : GrpcUpdateResult :=
  { operation_id := model.operation_id
    status := RestToGrpc.convert_update_stats model.status }

/-- `RestToGrpc.convert_payload_schema_type` (lines 333-344).  Total over the
four-member rest enum; the trailing `raise` is unreachable. -/
def RestToGrpc.convert_payload_schema_type (model : HttpPayloadSchemaType) : GrpcPayloadSchemaType :=
  match model with
  | .KEYWORD => .Keyword
  | .INTEGER => .Integer
  | .FLOAT => .Float
  | .GEO => .Geo

/-- The text of `RestToGrpc.convert_collection_status` at lines 296-305: a
correct `CollectionStatus` mapping.  In Python this definition is *shadowed*
by the later method of the same name at lines 346-351 and is therefore never
reachable through the class; it is kept here for the record. -/
def RestToGrpc.convert_collection_status_shadowed (model : HttpCollectionStatus) : GrpcCollectionStatus :=
  match model with
  | .RED => .Red
  | .YELLOW => .Yellow
  | .GREEN => .Green

/-- The dynamic argument actually reaching the effective
`RestToGrpc.convert_collection_status`: by its name it should receive a rest
`CollectionStatus`, by its body it expects a rest `UpdateResult`. -/
inductive CollectionStatusOrUpdateResult where
  | status (model : HttpCollectionStatus)
  | updateResult (model : HttpUpdateResult)
  deriving DecidableEq, Repr

/-- The *effective* `RestToGrpc.convert_collection_status`: the class body
defines this method name twice, and Python binds the later definition (lines
346-351), whose body is a copy of `convert_update_result` and reads
`model.operation_id`.  A rest `CollectionStatus` enum value has no
`operation_id` attribute, so passing one raises `AttributeError`. -/
def RestToGrpc.convert_collection_status (model : CollectionStatusOrUpdateResult) : Except ConvError GrpcUpdateResult :=
  match model with
  | .updateResult m =>
      .ok { operation_id := m.operation_id
            status := RestToGrpc.convert_update_stats m.status }
  | .status _ => .error (.attributeError "operation_id")

/-! ## Point id and match converters -/

/-- `GrpcToRest.convert_point_id` (lines 127-133).  The source tests the
oneof members by *truthiness* (`if model.num:`), so a populated member
holding a falsy value (`num == 0`, `uuid == ""`) is passed over exactly like
an unpopulated one, and a `PointId` whose members all read falsy raises
`ValueError` naming the model. -/
def GrpcToRest.convert_point_id (model : GrpcPointId) : Except ConvError HttpExtendedPointId :=
  if model.num ≠ 0 then .ok (.int model.num)
  else if model.uuid ≠ "" then .ok (.str model.uuid)
  else .error (.invalidPointId model)

/-- `GrpcToRest.convert_match` (lines 203-211).  Truthiness tests in source
order: `integer`, then `boolean`, then `keyword`; all falsy raises
`ValueError` naming the model. -/
def GrpcToRest.convert_match (model : GrpcMatch) : Except ConvError HttpMatch :=
  if model.integer ≠ 0 then .ok (.matchValue (.int model.integer))
  else if model.boolean then .ok (.matchValue (.bool model.boolean))
  else if model.keyword ≠ "" then .ok (.matchValue (.str model.keyword))
  else .error (.invalidMatch model)

/-- `RestToGrpc.convert_match` (lines 569-583).  For a `MatchValue` the value
is dispatched by isinstance checks in source order: `bool` first, then
`StrictInt`, then `StrictStr`; a `MatchValue` whose value matches none of
them falls through every isinstance test and raises `ValueError`. -/
def RestToGrpc.convert_match (model : HttpMatch) : Except ConvError GrpcMatch :=
  match model with
  | .matchValue value =>
      if value.isinstance_bool then .ok { variant := .boolean value.asBool }
      else if value.isinstance_strict_int then .ok { variant := .integer value.asInt }
      else if value.isinstance_strict_str then .ok { variant := .keyword value.asStr }
      else .error (.invalidRestMatch model)
  | .matchKeyword keyword => .ok { variant := .keyword keyword }
  | .matchInteger integer => .ok { variant := .integer integer }

/-! ## Geo, range, values-count, has-id, is-empty primitives -/

/-- grpc `Range` (proto doubles, default `0.0`). -/
structure GrpcRange where
  lt : Float := 0
  gt : Float := 0
  gte : Float := 0
  lte : Float := 0

/-- rest `Range` as produced by the grpc-to-rest converter (all four numbers
are copied over). -/
structure HttpRange where
  gt : Float
  gte : Float
  lt : Float
  lte : Float

/-- grpc `GeoPoint`. -/
structure GrpcGeoPoint where
  lat : Float := 0
  lon : Float := 0

/-- rest `GeoPoint`. -/
structure HttpGeoPoint where
  lat : Float
  lon : Float

/-- grpc `GeoRadius`. -/
structure GrpcGeoRadius where
  center : GrpcGeoPoint := {}
  radius : Float := 0

/-- rest `GeoRadius`. -/
structure HttpGeoRadius where
  center : HttpGeoPoint
  radius : Float

/-- grpc `GeoBoundingBox`. -/
structure GrpcGeoBoundingBox where
  top_left : GrpcGeoPoint := {}
  bottom_right : GrpcGeoPoint := {}

/-- rest `GeoBoundingBox`. -/
structure HttpGeoBoundingBox where
  top_left : HttpGeoPoint
  bottom_right : HttpGeoPoint

/-- grpc `ValuesCount` (proto unsigned integers, default `0`). -/
structure GrpcValuesCount where
  lt : Nat := 0
  gt : Nat := 0
  gte : Nat := 0
  lte : Nat := 0
  deriving DecidableEq, Repr

/-- rest `ValuesCount` as produced by the grpc-to-rest converter. -/
structure HttpValuesCount where
  gt : Nat
  gte : Nat
  lt : Nat
  lte : Nat
  deriving DecidableEq, Repr

/-- grpc `HasIdCondition`. -/
structure GrpcHasIdCondition where
  has_id : List GrpcPointId := []
  deriving DecidableEq, Repr

/-- rest `PayloadField`. -/
structure HttpPayloadField where
  key : String
  deriving DecidableEq, Repr

/-- rest `IsEmptyCondition`. -/
structure HttpIsEmptyCondition where
  is_empty : HttpPayloadField
  deriving DecidableEq, Repr

/-- grpc `IsEmptyCondition`. -/
structure GrpcIsEmptyCondition where
  key : String := ""
  deriving DecidableEq, Repr

/-- rest `HasIdCondition`. -/
structure HttpHasIdCondition where
  has_id : List HttpExtendedPointId
  deriving DecidableEq, Repr

/-- `GrpcToRest.convert_range` (lines 29-36). -/
def GrpcToRest.convert_range (model : GrpcRange) : HttpRange :=
  { gt := model.gt, gte := model.gte, lt := model.lt, lte := model.lte }

/-- `GrpcToRest.convert_geo_point` (lines 233-238). -/
def GrpcToRest.convert_geo_point (model : GrpcGeoPoint) : HttpGeoPoint :=
  { lat := model.lat, lon := model.lon }

/-- `GrpcToRest.convert_geo_radius` (lines 38-43). -/
def GrpcToRest.convert_geo_radius (model : GrpcGeoRadius) : HttpGeoRadius :=
  { center := GrpcToRest.convert_geo_point model.center, radius := model.radius }

/-- `GrpcToRest.convert_geo_bounding_box` (lines 172-177). -/
def GrpcToRest.convert_geo_bounding_box (model : GrpcGeoBoundingBox) : HttpGeoBoundingBox :=
  { top_left := GrpcToRest.convert_geo_point model.top_left
    bottom_right := GrpcToRest.convert_geo_point model.bottom_right }

/-- `GrpcToRest.convert_values_count` (lines 163-170). -/
def GrpcToRest.convert_values_count (model : GrpcValuesCount) : HttpValuesCount :=
  { gt := model.gt, gte := model.gte, lt := model.lt, lte := model.lte }

/-- `GrpcToRest.convert_has_id_condition` (lines 121-125): element-wise point
id conversion, so an invalid id propagates its error. -/
def GrpcToRest.convert_has_id_condition (model : GrpcHasIdCondition) : Except ConvError HttpHasIdCondition := do
  let ids ← model.has_id.mapM GrpcToRest.convert_point_id
  return { has_id := ids }

/-- `GrpcToRest.convert_is_empty_condition` (lines 143-145). -/
def GrpcToRest.convert_is_empty_condition (model : GrpcIsEmptyCondition) : HttpIsEmptyCondition :=
  { is_empty := { key := model.key } }

/-! ## Field conditions, conditions and filters -/

/-- grpc `FieldCondition`: message-typed constraint members, unset members
read as absent. -/
structure GrpcFieldCondition where
  key : String := ""
  «match» : Option GrpcMatch := none
  range : Option GrpcRange := none
  geo_bounding_box : Option GrpcGeoBoundingBox := none
  geo_radius : Option GrpcGeoRadius := none
  values_count : Option GrpcValuesCount := none

/-- rest `FieldCondition`. -/
structure HttpFieldCondition where
  key : String
  geo_bounding_box : Option HttpGeoBoundingBox
  geo_radius : Option HttpGeoRadius
  «match» : Option HttpMatch
  range : Option HttpRange
  values_count : Option HttpValuesCount

/-- `GrpcToRest.convert_field_condition` (lines 187-201): each constraint
member is converted when truthy (present) and passed as `None` otherwise; an
invalid `Match` propagates its error. -/
def GrpcToRest.convert_field_condition (model : GrpcFieldCondition) : Except ConvError HttpFieldCondition := do
  let geo_bounding_box := model.geo_bounding_box.map GrpcToRest.convert_geo_bounding_box
  let geo_radius := model.geo_radius.map GrpcToRest.convert_geo_radius
  let mval ← match model.«match» with
    | some m => Except.map some (GrpcToRest.convert_match m)
    | none => pure none
  let range := model.range.map GrpcToRest.convert_range
  let values_count := model.values_count.map GrpcToRest.convert_values_count
  return { key := model.key
           geo_bounding_box := geo_bounding_box
           geo_radius := geo_radius
           «match» := mval
           range := range
           values_count := values_count }

/-!
grpc `Condition` (a oneof over four message members, each possibly unset)
and grpc `Filter` (three repeated-condition members), mutually recursive.
-/

mutual

/-- grpc `Condition`. -/
inductive GrpcCondition where
  | mk (field : Option GrpcFieldCondition) (filter : Option GrpcFilter)
       (has_id : Option GrpcHasIdCondition) (is_empty : Option GrpcIsEmptyCondition) : GrpcCondition

/-- grpc `Filter`. -/
inductive GrpcFilter where
  | mk (must : List GrpcCondition) (should : List GrpcCondition)
       (must_not : List GrpcCondition) : GrpcFilter

end

/-!
rest `Condition` union (`FieldCondition | IsEmptyCondition |
HasIdCondition | Filter`) and rest `Filter`.  The grpc-to-rest condition
converter can return `None` (see `GrpcToRest.convert_condition`), and the
filter converter places its results in lists unchanged, so the filter's list
elements are `Option`-valued exactly as constructed by the source.
-/

mutual

/-- rest `Condition` union. -/
inductive HttpCondition where
  | fieldCondition (c : HttpFieldCondition) : HttpCondition
  | isEmpty (c : HttpIsEmptyCondition) : HttpCondition
  | hasId (c : HttpHasIdCondition) : HttpCondition
  | filter (f : HttpFilter) : HttpCondition

/-- rest `Filter`. -/
inductive HttpFilter where
  | mk (must : List (Option HttpCondition)) (should : List (Option HttpCondition))
       (must_not : List (Option HttpCondition)) : HttpFilter

end

mutual

/-- `GrpcToRest.convert_condition` (lines 10-19): tests the four oneof
members by truthiness in source order (`field`, `filter`, `has_id`,
`is_empty`) and dispatches to the member converter.  When *no* member is
populated the Python function runs off its end and implicitly returns
`None`: there is no trailing `raise`, unlike `convert_point_id` and
`convert_match`.  That silent `None` is modelled as `.ok none`. -/
def GrpcToRest.convert_condition : GrpcCondition → Except ConvError (Option HttpCondition)
  | .mk (some fc) _ _ _ =>
      Except.map (fun r => some (.fieldCondition r)) (GrpcToRest.convert_field_condition fc)
  | .mk none (some fl) _ _ =>
      Except.map (fun r => some (.filter r)) (GrpcToRest.convert_filter fl)
  | .mk none none (some h) _ =>
      Except.map (fun r => some (.hasId r)) (GrpcToRest.convert_has_id_condition h)
  | .mk none none none (some i) =>
      .ok (some (.isEmpty (GrpcToRest.convert_is_empty_condition i)))
  | .mk none none none none => .ok none

/-- `GrpcToRest.convert_filter` (lines 21-27). -/
def GrpcToRest.convert_filter : GrpcFilter → Except ConvError HttpFilter
  | .mk must should must_not => do
      let m ← GrpcToRest.convert_condition_list must
      let s ← GrpcToRest.convert_condition_list should
      let mn ← GrpcToRest.convert_condition_list must_not
      return .mk m s mn

/-- Models the list comprehension
`[cls.convert_condition(condition) for condition in ...]`. -/
def GrpcToRest.convert_condition_list : List GrpcCondition → Except ConvError (List (Option HttpCondition))
  | [] => .ok []
  | c :: cs => do
      let h ← GrpcToRest.convert_condition c
      let t ← GrpcToRest.convert_condition_list cs
      return h :: t

end

/-! ## Collection configuration -/

/-- grpc `HnswConfigDiff`. -/
structure GrpcHnswConfigDiff where
  m : Nat := 0
  ef_construct : Nat := 0
  full_scan_threshold : Nat := 0
  deriving DecidableEq, Repr

/-- rest `HnswConfig`. -/
structure HttpHnswConfig where
  ef_construct : Nat
  m : Nat
  full_scan_threshold : Nat
  deriving DecidableEq, Repr

/-- grpc `OptimizersConfigDiff` (`deleted_threshold` is a proto double). -/
structure GrpcOptimizersConfigDiff where
  deleted_threshold : Float := 0
  vacuum_min_vector_number : Nat := 0
  default_segment_number : Nat := 0
  max_segment_size : Nat := 0
  memmap_threshold : Nat := 0
  indexing_threshold : Nat := 0
  payload_indexing_threshold : Nat := 0
  flush_interval_sec : Nat := 0
  max_optimization_threads : Nat := 0

/-- rest `OptimizersConfig`. -/
structure HttpOptimizersConfig where
  default_segment_number : Nat
  deleted_threshold : Float
  flush_interval_sec : Nat
  indexing_threshold : Nat
  max_optimization_threads : Nat
  max_segment_size : Nat
  memmap_threshold : Nat
  payload_indexing_threshold : Nat
  vacuum_min_vector_number : Nat

/-- grpc `WalConfigDiff`. -/
structure GrpcWalConfigDiff where
  wal_capacity_mb : Nat := 0
  wal_segments_ahead : Nat := 0
  deriving DecidableEq, Repr

/-- rest `WalConfig`. -/
structure HttpWalConfig where
  wal_capacity_mb : Nat
  wal_segments_ahead : Nat
  deriving DecidableEq, Repr

/-- grpc `CollectionParams`.  Note the field holding the vector dimension is
named `vector_size`; the shadowed grpc-to-rest params converter reads a
non-existent attribute `vector_sie`. -/
structure GrpcCollectionParams where
  vector_size : Nat := 0
  shard_number : Nat := 0
  distance : GrpcDistance := .UnknownDistance
  deriving DecidableEq, Repr

/-- rest `CollectionParams`. -/
structure HttpCollectionParams where
  distance : HttpDistance
  shard_number : Nat
  vector_size : Nat
  deriving DecidableEq, Repr

/-- grpc `CollectionConfig`. -/
structure GrpcCollectionConfig where
  params : GrpcCollectionParams := {}
  hnsw_config : GrpcHnswConfigDiff := {}
  optimizer_config : GrpcOptimizersConfigDiff := {}
  wal_config : GrpcWalConfigDiff := {}

/-- rest `CollectionConfig`. -/
structure HttpCollectionConfig where
  hnsw_config : HttpHnswConfig
  optimizer_config : HttpOptimizersConfig
  params : HttpCollectionParams
  wal_config : HttpWalConfig

/-- `GrpcToRest.convert_hnsw_config` (lines 70-73). -/
def GrpcToRest.convert_hnsw_config (model : GrpcHnswConfigDiff) : HttpHnswConfig :=
  { ef_construct := model.ef_construct
    m := model.m
    full_scan_threshold := model.full_scan_threshold }

/-- `GrpcToRest.convert_optimizer_config` (lines 75-87). -/
def GrpcToRest.convert_optimizer_config (model : GrpcOptimizersConfigDiff) : HttpOptimizersConfig :=
  { default_segment_number := model.default_segment_number
    deleted_threshold := model.deleted_threshold
    flush_interval_sec := model.flush_interval_sec
    indexing_threshold := model.indexing_threshold
    max_optimization_threads := model.max_optimization_threads
    max_segment_size := model.max_segment_size
    memmap_threshold := model.memmap_threshold
    payload_indexing_threshold := model.payload_indexing_threshold
    vacuum_min_vector_number := model.vacuum_min_vector_number }

/-- The *effective* `GrpcToRest.convert_collection_params`: the class defines
this method name twice (lines 89-95 and 221-223); Python binds the later
definition, whose body is `raise NotImplementedError()`. -/
def GrpcToRest.convert_collection_params (_ : GrpcCollectionParams) : Except ConvError HttpCollectionParams :=
  .error .notImplemented

/-- The text of `GrpcToRest.convert_collection_params` at lines 89-95 (the
definition shadowed by the stub above).  Its keyword arguments are evaluated
in source order: `cls.convert_distance(model.distance)` first (which raises
`NotImplementedError` on the unknown enum member), then `model.shard_number`,
then `model.vector_sie` — and `vector_sie` is not a field of grpc
`CollectionParams`, so reaching it raises `AttributeError`. -/
def GrpcToRest.convert_collection_params_shadowed (model : GrpcCollectionParams) : Except ConvError HttpCollectionParams := do
  let _distance ← GrpcToRest.convert_distance model.distance
  .error (.attributeError "vector_sie")

/-- The *effective* `GrpcToRest.convert_collection_config`: the class defines
this method name twice (lines 61-68 and 217-219); Python binds the later
definition, whose body is `raise NotImplementedError()`. -/
def GrpcToRest.convert_collection_config (_ : GrpcCollectionConfig) : Except ConvError HttpCollectionConfig :=
  .error .notImplemented

/-- The text of `GrpcToRest.convert_collection_config` at lines 61-68 (the
definition shadowed by the stub above).  Its keyword arguments are evaluated
in source order: `convert_hnsw_config` (total), `convert_optimizer_config`
(total), then `cls.convert_collection_params` — which at call time resolves
to the effective `NotImplementedError` stub, so the call never reaches its
final argument `cls.convert_wal_config(model.wal_config)` (a method
`GrpcToRest` does not define at all: that lookup would itself raise
`AttributeError`). -/
def GrpcToRest.convert_collection_config_shadowed (model : GrpcCollectionConfig) : Except ConvError HttpCollectionConfig := do
  let _hnsw := GrpcToRest.convert_hnsw_config model.hnsw_config
  let _optimizer := GrpcToRest.convert_optimizer_config model.optimizer_config
  let _params ← GrpcToRest.convert_collection_params model.params
  .error (.attributeError "convert_wal_config")

/-! ## Collection migrator (`qdrant_client/migrate/migrate.py`)

The migrator drives two abstract `QdrantBase` clients.  The concrete client
implementations are not part of this repository's sources, so a client is
modelled as the data the migrator observes: its collection names
(`get_collections`), its records per collection (backing `scroll`), its
payload-index schema per collection, and the point count its
`get_collection(...).vectors_count` reports.  The write calls the migrator
issues against the destination are recorded as an event trace. -/

/-- A stored record (point).  The migrator moves records opaquely; only an
identifier is modelled. -/
structure Record where
  id : Nat
  deriving DecidableEq, Repr

/-- A migrator-issued client call.  `scroll` is the read used for paging;
the other three are the writes issued against the destination
(`recreate_collection`, `create_payload_index`, `upload_records`). -/
inductive Event where
  | scroll (collection : String) (offset : Option Nat) (limit : Nat)
  | recreateCollection (collection : String)
  | createPayloadIndex (collection : String) (fieldName : String)
  | uploadRecords (collection : String) (records : List Record)
  deriving DecidableEq, Repr

/-- The collection an event addresses. -/
def Event.collection : Event → String
  | .scroll c _ _ => c
  | .recreateCollection c => c
  | .createPayloadIndex c _ => c
  | .uploadRecords c _ => c

/-- An abstract `QdrantBase` client, reduced to the data the migrator
observes through the capability interface. -/
structure Client where
  collections : List String
  records : String → List Record
  payloadSchema : String → List String
  reportedCount : String → Nat

/-- Modelled from the spec: `scroll(name, {offset?, limit, withVectors}) →
(records, nextOffset|null)` — the client-side paging read (spec section 6),
whose implementation is not among this repository's sources.  The cursor is
an opaque token (here: the index of the next unread record); a null cursor
signals exhaustion (spec glossary, "Scroll cursor"). -/
def Client.scroll (c : Client) (name : String) (offset : Option Nat) (limit : Nat) :
    List Record × Option Nat :=
  let recs := c.records name
  let start := offset.getD 0
  let page := (recs.drop start).take limit
  let next := start + page.length
  (page, if next < recs.length then some next else none)

/-- `MigrationCollisionAction` (migrate.py lines 9-14). -/
inductive MigrationCollisionAction where
  | RAISE
  | RECREATE
  | SKIP
  deriving DecidableEq, Repr

/-- The errors migrate.py raises: the `assert` in `select_source_collections`
(missing source collections), the `ValueError` in `migrate` (collisions under
the Raise policy) and the `assert` in `migrate_collection` (final point-count
mismatch).  Each carries the data its Python message interpolates. -/
inductive MigrateError where
  | missingCollections (missing : List String)
  | collision (colliding : List String)
  | countMismatch (sourceCount : Nat) (destCount : Nat)
  deriving DecidableEq, Repr

/-- `select_source_collections` (lines 54-64).  Python's `if
collection_names:` is falsy both for `None` and for an empty list, so both
fall back to all source collection names (a set built from the listed
collections, modelled by `dedup`).  A non-empty requested list must be wholly
contained in the source names, else the `assert` fires naming the missing
set `set(collection_names) - source_collection_names`. -/
def select_source_collections (source_client : Client)
    (collection_names : Option (List String)) : Except MigrateError (List String) :=
  let source_collection_names := source_client.collections.dedup
  match collection_names with
  | some names =>
      if names = [] then .ok source_collection_names
      else if ∀ n ∈ names, n ∈ source_collection_names then .ok names
      else .error (.missingCollections ((names.filter (fun n => n ∉ source_collection_names)).dedup))
  | none => .ok source_collection_names

/-- `find_collisions` (lines 67-71): the intersection
`dest_collection_names & set(collection_names)`, returned as a list. -/
def find_collisions (dest_client : Client) (collection_names : List String) : List String :=
  (dest_client.collections.dedup).filter (fun n => n ∈ collection_names)

/-- `recreate_collection` (lines 74-96) followed by `recreate_payload_schema`
(lines 99-109): one destructive create-or-replace of the collection on the
destination (its configuration arguments are read from the source and not
inspected further by any claim), then one `create_payload_index` per field of
the source's payload schema. -/
def recreate_collection (source_client : Client) (collection_name : String) : List Event :=
  Event.recreateCollection collection_name ::
    (source_client.payloadSchema collection_name).map
      (fun fieldName => Event.createPayloadIndex collection_name fieldName)

/-- The `while next_offset:` loop of `migrate_collection` (lines 130-134).
The fuel argument bounds the iteration count; `migrate_collection` passes
`(records).length + 1`, which is never exhausted for a positive batch size
because every iteration advances the cursor by at least one record. -/
def migrateLoop (source_client : Client) (collection_name : String) (batch_size : Nat) :
    Option Nat → Nat → List Event
  | none, _ => []
  | some _, 0 => []
  | some off, fuel + 1 =>
      let step := source_client.scroll collection_name (some off) batch_size
      Event.scroll collection_name (some off) batch_size ::
        Event.uploadRecords collection_name step.1 ::
          migrateLoop source_client collection_name batch_size step.2 fuel

/-- The calls `migrate_collection` issues before its final count check
(lines 126-134): an initial scroll-and-upload, then the scroll-and-upload
loop until the cursor is exhausted. -/
def migrate_collection_trace (source_client : Client) (collection_name : String)
    (batch_size : Nat) : List Event :=
  let first := source_client.scroll collection_name none batch_size
  Event.scroll collection_name none batch_size ::
    Event.uploadRecords collection_name first.1 ::
      migrateLoop source_client collection_name batch_size first.2
        ((source_client.records collection_name).length + 1)

/-- `migrate_collection` (lines 112-140): copy all pages, then fetch
`vectors_count` from both sides and `assert` they are equal.  The check runs
after every upload has been issued; nothing is rolled back on mismatch. -/
def migrate_collection (source_client dest_client : Client) (collection_name : String)
    (batch_size : Nat) : List Event × Except MigrateError Unit :=
  (migrate_collection_trace source_client collection_name batch_size,
   let s := source_client.reportedCount collection_name
   let d := dest_client.reportedCount collection_name
   if s = d then .ok () else .error (.countMismatch s d))

/-- The per-collection body of the two `for` loops in `migrate` (lines 45-51):
`recreate_collection` then `migrate_collection` for each name in turn; a
raised error aborts the whole run, leaving the remaining names unprocessed. -/
def migrateMany (source_client dest_client : Client) (batch_size : Nat) :
    List String → List Event × Except MigrateError Unit
  | [] => ([], .ok ())
  | c :: cs =>
      let re := recreate_collection source_client c
      let mc := migrate_collection source_client dest_client c batch_size
      match mc.2 with
      | .error e => (re ++ mc.1, .error e)
      | .ok _ =>
          let rest := migrateMany source_client dest_client batch_size cs
          (re ++ mc.1 ++ rest.1, rest.2)

/-- `migrate` (lines 17-51): select the source collections, detect
collisions, apply the collision policy (`Raise` aborts before any write,
`Skip` empties the collision list, `Recreate` keeps it), then process the
absent collections and finally the surviving colliding ones. -/
def migrate (source_client dest_client : Client) (collection_names : Option (List String))
    (on_collision_action : MigrationCollisionAction) (batch_size : Nat) :
    List Event × Except MigrateError Unit :=
  match select_source_collections source_client collection_names with
  | .error e => ([], .error e)
  | .ok names =>
      let collisions := find_collisions dest_client names
      let absent_dest_collections := names.dedup.filter (fun n => n ∉ collisions)
      if collisions ≠ [] ∧ on_collision_action = .RAISE then
        ([], .error (.collision collisions))
      else
        let collisions := if collisions ≠ [] ∧ on_collision_action = .SKIP then [] else collisions
        let first := migrateMany source_client dest_client batch_size absent_dest_collections
        match first.2 with
        | .error e => (first.1, .error e)
        | .ok _ =>
            let second := migrateMany source_client dest_client batch_size collisions
            (first.1 ++ second.1, second.2)

/-! ## Theorems -/

/-- Claim C2.  Round-trip conversion is the identity for every valid enum
value of `Distance` (grpc→rest→grpc and rest→grpc→rest) and of
`UpdateStatus`; but for `CollectionStatus` the rest→grpc converter actually
bound to the name `RestToGrpc.convert_collection_status` is the later
duplicate definition (a copy of `convert_update_result`), so applying it to
a rest `CollectionStatus` value raises `AttributeError` on `operation_id`
instead of converting — the claimed round trip fails for `CollectionStatus`
(and the grpc→rest direction for `CollectionStatus` and `PayloadSchemaType`
is not defined in `GrpcToRest` at all). -/
theorem enum_round_trips_and_status_shadowing :
    (Except.map RestToGrpc.convert_distance (GrpcToRest.convert_distance .Cosine) = .ok .Cosine) ∧
    (Except.map RestToGrpc.convert_distance (GrpcToRest.convert_distance .Euclid) = .ok .Euclid) ∧
    (Except.map RestToGrpc.convert_distance (GrpcToRest.convert_distance .Dot) = .ok .Dot) ∧
    (GrpcToRest.convert_distance (RestToGrpc.convert_distance .COSINE) = .ok .COSINE) ∧
    (GrpcToRest.convert_distance (RestToGrpc.convert_distance .EUCLID) = .ok .EUCLID) ∧
    (GrpcToRest.convert_distance (RestToGrpc.convert_distance .DOT) = .ok .DOT) ∧
    (Except.map RestToGrpc.convert_update_stats (GrpcToRest.convert_update_status .Acknowledged) = .ok .Acknowledged) ∧
    (Except.map RestToGrpc.convert_update_stats (GrpcToRest.convert_update_status .Completed) = .ok .Completed) ∧
    (GrpcToRest.convert_update_status (RestToGrpc.convert_update_stats .ACKNOWLEDGED) = .ok .ACKNOWLEDGED) ∧
    (GrpcToRest.convert_update_status (RestToGrpc.convert_update_stats .COMPLETED) = .ok .COMPLETED) ∧
    (RestToGrpc.convert_collection_status (.status .RED) = .error (.attributeError "operation_id")) :=
  ⟨rfl, rfl, rfl, rfl, rfl, rfl, rfl, rfl, rfl, rfl, rfl⟩

/-- Claim C3, counterexample.  A grpc `Condition` with zero variants
populated does *not* raise: `GrpcToRest.convert_condition` runs off the end
of its if-chain and silently returns `None`. -/
theorem convert_condition_zero_variants_silent :
    GrpcToRest.convert_condition (.mk none none none none) = .ok none := rfl

/-- Claim C3, amended.  For `PointId` and `Match`, the grpc-to-rest
conversion of a value with zero variants populated raises an error naming
the offending value; `GrpcToRest.convert_condition`, by contrast, silently
returns `None` (no error, no variant) on a condition with zero variants
populated. -/
theorem zero_variants_error_except_condition :
    (GrpcToRest.convert_point_id { variant := .unset } =
      .error (.invalidPointId { variant := .unset })) ∧
    (GrpcToRest.convert_match { variant := .unset } =
      .error (.invalidMatch { variant := .unset })) ∧
    (GrpcToRest.convert_condition (.mk none none none none) = .ok none) :=
  ⟨rfl, rfl, rfl⟩

/-- Claim C4.  The grpc-to-rest conversion of `CollectionConfig` never
succeeds: the method name is bound to the later duplicate definition, which
unconditionally raises `NotImplementedError` (and even the shadowed
field-by-field definition fails, because `convert_collection_params` is
itself bound to a `NotImplementedError` stub, with a `vector_sie`
misspelling and a missing `convert_wal_config` behind it). -/
theorem convert_collection_config_raises_not_implemented :
    (GrpcToRest.convert_collection_config {} = .error .notImplemented) ∧
    (GrpcToRest.convert_collection_params {} = .error .notImplemented) ∧
    (GrpcToRest.convert_collection_config_shadowed {} = .error .notImplemented) :=
  ⟨rfl, rfl, rfl⟩

/-- Claim C9.  The grpc-to-rest converters test variants by truthiness, so a
populated variant holding a falsy value is treated as unpopulated: a grpc
`PointId` with `num = 0` raises the invalid-PointId error, and a grpc
`Match` with `integer = 0`, `boolean = false` or `keyword = ""` raises the
invalid-Match error, each error naming the offending model. -/
theorem falsy_populated_variants_rejected :
    (GrpcToRest.convert_point_id { variant := .num 0 } =
      .error (.invalidPointId { variant := .num 0 })) ∧
    (GrpcToRest.convert_match { variant := .integer 0 } =
      .error (.invalidMatch { variant := .integer 0 })) ∧
    (GrpcToRest.convert_match { variant := .boolean false } =
      .error (.invalidMatch { variant := .boolean false })) ∧
    (GrpcToRest.convert_match { variant := .keyword "" } =
      .error (.invalidMatch { variant := .keyword "" })) :=
  ⟨rfl, rfl, rfl, rfl⟩

/-- Claim C10.  `RestToGrpc.convert_match` tests `bool` before the integer
isinstance check, so a `MatchValue` holding a boolean is converted to the
grpc `boolean` variant and never to the `integer` variant — even though a
Python boolean also satisfies the integer isinstance check (last two
conjuncts), which would otherwise capture it. -/
theorem match_value_bool_checked_before_int :
    (RestToGrpc.convert_match (.matchValue (.bool true)) = .ok { variant := .boolean true }) ∧
    (RestToGrpc.convert_match (.matchValue (.bool false)) = .ok { variant := .boolean false }) ∧
    (PyScalar.isinstance_strict_int (.bool true) = true) ∧
    (PyScalar.isinstance_strict_int (.bool false) = true) :=
  ⟨rfl, rfl, rfl, rfl⟩

/-- A source holding one collection of five records, for the concrete paging
run of claim C5. -/
def fiveRecordSource : Client :=
  { collections := ["collection"]
    records := fun _ => [⟨1⟩, ⟨2⟩, ⟨3⟩, ⟨4⟩, ⟨5⟩]
    payloadSchema := fun _ => []
    reportedCount := fun _ => 5 }

/-- An initially empty destination whose final reported count matches the
source, for the concrete paging run of claim C5. -/
def fiveRecordDest : Client :=
  { collections := []
    records := fun _ => []
    payloadSchema := fun _ => []
    reportedCount := fun _ => 5 }

/-- Claim C5.  Over a source collection of 5 records with batch size 2,
`migrate_collection` issues exactly 3 scroll requests whose pages hold 2, 2
and 1 records, and exactly 3 uploads carrying those same pages in the same
order, preserving record order within and across pages. -/
theorem migrate_collection_five_records_batch_two :
    migrate_collection fiveRecordSource fiveRecordDest "collection" 2 =
      ([.scroll "collection" none 2,
        .uploadRecords "collection" [⟨1⟩, ⟨2⟩],
        .scroll "collection" (some 2) 2,
        .uploadRecords "collection" [⟨3⟩, ⟨4⟩],
        .scroll "collection" (some 4) 2,
        .uploadRecords "collection" [⟨5⟩]],
       .ok ()) := rfl

/-! ### Helper lemmas about the migrator's event traces -/

/-- Every event issued by `recreate_collection` addresses the collection it
was called for. -/
theorem collection_of_mem_recreate {src : Client} {c : String} {e : Event}
    (h : e ∈ recreate_collection src c) : e.collection = c := by
  simp only [recreate_collection, List.mem_cons, List.mem_map] at h
  rcases h with rfl | ⟨f, _, rfl⟩ <;> rfl

/-- Every event issued by the scroll-and-upload loop addresses the collection
it was called for. -/
theorem collection_of_mem_loop {src : Client} {c : String} {b : Nat} :
    ∀ (fuel : Nat) (off : Option Nat) {e : Event},
      e ∈ migrateLoop src c b off fuel → e.collection = c := by
  intro fuel
  induction fuel with
  | zero =>
      intro off e h
      cases off <;> simp [migrateLoop] at h
  | succ n ih =>
      intro off e h
      cases off with
      | none => simp [migrateLoop] at h
      | some o =>
          simp only [migrateLoop, List.mem_cons] at h
          rcases h with rfl | rfl | h
          · rfl
          · rfl
          · exact ih _ h

/-- Every event issued by `migrate_collection` addresses the collection it
was called for. -/
theorem collection_of_mem_trace {src : Client} {c : String} {b : Nat} {e : Event}
    (h : e ∈ migrate_collection_trace src c b) : e.collection = c := by
  simp only [migrate_collection_trace, List.mem_cons] at h
  rcases h with rfl | rfl | h
  · rfl
  · rfl
  · exact collection_of_mem_loop _ _ h

/-- The scroll-and-upload loop never issues a `recreate_collection` call. -/
theorem recreate_not_mem_loop {src : Client} {c x : String} {b : Nat} :
    ∀ (fuel : Nat) (off : Option Nat),
      Event.recreateCollection x ∉ migrateLoop src c b off fuel := by
  intro fuel
  induction fuel with
  | zero =>
      intro off h
      cases off <;> simp [migrateLoop] at h
  | succ n ih =>
      intro off h
      cases off with
      | none => simp [migrateLoop] at h
      | some o =>
          simp only [migrateLoop, List.mem_cons] at h
          rcases h with h | h | h
          · exact Event.noConfusion h
          · exact Event.noConfusion h
          · exact ih _ h

/-- `migrate_collection` never issues a `recreate_collection` call. -/
theorem recreate_not_mem_trace {src : Client} {c x : String} {b : Nat} :
    Event.recreateCollection x ∉ migrate_collection_trace src c b := by
  intro h
  simp only [migrate_collection_trace, List.mem_cons] at h
  rcases h with h | h | h
  · exact Event.noConfusion h
  · exact Event.noConfusion h
  · exact recreate_not_mem_loop _ _ h

/-- `migrate_collection` always uploads the first scrolled page of its
collection. -/
theorem first_upload_mem_trace {src : Client} {c : String} {b : Nat} :
    Event.uploadRecords c (src.scroll c none b).1 ∈ migrate_collection_trace src c b := by
  simp [migrate_collection_trace]

/-- A `recreate_collection` event lies in a collection's recreate block
exactly when it names that collection. -/
theorem recreate_mem_recreate_iff {src : Client} {c x : String} :
    Event.recreateCollection x ∈ recreate_collection src c ↔ x = c := by
  simp [recreate_collection, List.mem_map]

/-- The trace component of `migrate_collection` is its copy trace. -/
theorem migrate_collection_fst (src dest : Client) (c : String) (b : Nat) :
    (migrate_collection src dest c b).1 = migrate_collection_trace src c b := rfl

/-- `migrate_collection` succeeds when the two reported counts agree. -/
theorem migrate_collection_snd_ok {src dest : Client} {c : String} {b : Nat}
    (h : src.reportedCount c = dest.reportedCount c) :
    (migrate_collection src dest c b).2 = .ok () := by
  simp [migrate_collection, h]

/-- Unfolding of the per-collection loop body on a head that copies
successfully. -/
theorem migrateMany_cons_ok {src dest : Client} {b : Nat} {c : String} {cs : List String}
    (h : (migrate_collection src dest c b).2 = .ok ()) :
    migrateMany src dest b (c :: cs) =
      (recreate_collection src c ++ migrate_collection_trace src c b ++
         (migrateMany src dest b cs).1,
       (migrateMany src dest b cs).2) := by
  simp only [migrateMany]
  rw [h]
  rfl

/-- When source and destination report equal counts for every collection,
the per-collection loop body succeeds on every list of names. -/
theorem migrateMany_snd_ok {src dest : Client} {b : Nat}
    (hcnt : ∀ n, src.reportedCount n = dest.reportedCount n) :
    ∀ L : List String, (migrateMany src dest b L).2 = .ok () := by
  intro L
  induction L with
  | nil => rfl
  | cons c cs ih =>
      rw [migrateMany_cons_ok (migrate_collection_snd_ok (hcnt c))]
      exact ih

/-- When source and destination report equal counts for every collection,
the events of the per-collection loop body are exactly the recreate blocks
and copy traces of the listed collections. -/
theorem mem_migrateMany_fst {src dest : Client} {b : Nat}
    (hcnt : ∀ n, src.reportedCount n = dest.reportedCount n)
    (L : List String) (e : Event) :
    e ∈ (migrateMany src dest b L).1 ↔
      ∃ c, c ∈ L ∧
        (e ∈ recreate_collection src c ∨ e ∈ migrate_collection_trace src c b) := by
  induction L with
  | nil => simp [migrateMany]
  | cons c cs ih =>
      rw [migrateMany_cons_ok (migrate_collection_snd_ok (hcnt c))]
      simp only [List.append_assoc, List.mem_append, ih, List.mem_cons]
      constructor
      · rintro (h | h | ⟨c', hc', hp⟩)
        · exact ⟨c, Or.inl rfl, Or.inl h⟩
        · exact ⟨c, Or.inl rfl, Or.inr h⟩
        · exact ⟨c', Or.inr hc', hp⟩
      · rintro ⟨c', hc' | hc', hp⟩
        · subst hc'
          rcases hp with h | h
          · exact Or.inl h
          · exact Or.inr (Or.inl h)
        · exact Or.inr (Or.inr ⟨c', hc', hp⟩)

/-- Claim C6.  After copying all pages, `migrate_collection` compares the
reported source and destination point counts: it succeeds exactly when they
are equal, on a mismatch it fails with a count-mismatch error carrying both
counts, and its call trace is the full copy trace either way — the data has
already been written and nothing is rolled back. -/
theorem migrate_collection_count_check (src dest : Client) (name : String) (batch : Nat) :
    ((migrate_collection src dest name batch).2 = .ok () ↔
      src.reportedCount name = dest.reportedCount name) ∧
    (src.reportedCount name ≠ dest.reportedCount name →
      (migrate_collection src dest name batch).2 =
        .error (.countMismatch (src.reportedCount name) (dest.reportedCount name))) ∧
    (migrate_collection src dest name batch).1 = migrate_collection_trace src name batch := by
  refine ⟨?_, ?_, rfl⟩
  · by_cases h : src.reportedCount name = dest.reportedCount name <;>
      simp [migrate_collection, h]
  · intro h
    simp [migrate_collection, h]

/-- A source reporting 100 points, for the count-mismatch witness. -/
def hundredSource : Client :=
  { collections := ["collection"]
    records := fun _ => []
    payloadSchema := fun _ => []
    reportedCount := fun _ => 100 }

/-- A destination reporting 99 points, for the count-mismatch witness. -/
def ninetyNineDest : Client :=
  { collections := []
    records := fun _ => []
    payloadSchema := fun _ => []
    reportedCount := fun _ => 99 }

/-- Witness for claim C6: with the source reporting 100 points and the
destination 99, migration of the collection fails with the count-mismatch
error carrying both counts. -/
theorem migrate_collection_count_check_witness :
    (migrate_collection hundredSource ninetyNineDest "collection" 2).2 =
      .error (.countMismatch 100 99) :=
  (migrate_collection_count_check hundredSource ninetyNineDest "collection" 2).2.1 (by decide)

/-- Claim C7.  `select_source_collections` returns a non-empty requested
list unchanged when every requested name exists at the source; when some
requested name is missing it fails with an error naming exactly the missing
set; and when the request is omitted it returns all source collection
names. -/
theorem select_source_collections_spec (src : Client) (names : List String) :
    (names ≠ [] → (∀ n ∈ names, n ∈ src.collections) →
      select_source_collections src (some names) = .ok names) ∧
    (names ≠ [] → (∃ n ∈ names, n ∉ src.collections) →
      ∃ missing,
        select_source_collections src (some names) = .error (.missingCollections missing) ∧
        ∀ x, x ∈ missing ↔ (x ∈ names ∧ x ∉ src.collections)) ∧
    (∃ all, select_source_collections src none = .ok all ∧
      ∀ x, x ∈ all ↔ x ∈ src.collections) := by
  refine ⟨?_, ?_, ⟨src.collections.dedup, rfl, fun x => List.mem_dedup⟩⟩
  · intro hne hall
    have hall' : ∀ n ∈ names, n ∈ src.collections.dedup :=
      fun n hn => List.mem_dedup.mpr (hall n hn)
    simp only [select_source_collections]
    rw [if_neg hne, if_pos hall']
  · intro hne hmiss
    have hnall : ¬∀ n ∈ names, n ∈ src.collections.dedup := by
      intro hall
      obtain ⟨n, hn, hnot⟩ := hmiss
      exact hnot (List.mem_dedup.mp (hall n hn))
    refine ⟨(names.filter (fun n => n ∉ src.collections.dedup)).dedup, ?_, ?_⟩
    · simp only [select_source_collections]
      rw [if_neg hne, if_neg hnall]
    · intro x
      simp [List.mem_dedup, List.mem_filter]

/-- A source holding collections `a`, `b`, `c`, for the selection witness. -/
def threeCollectionSource : Client :=
  { collections := ["a", "b", "c"]
    records := fun _ => []
    payloadSchema := fun _ => []
    reportedCount := fun _ => 0 }

/-- Witness for claim C7: requesting `["a", "c"]` from a source holding
`{a, b, c}` returns `["a", "c"]` unchanged. -/
theorem select_source_collections_spec_witness :
    select_source_collections threeCollectionSource (some ["a", "c"]) = .ok ["a", "c"] :=
  (select_source_collections_spec threeCollectionSource ["a", "c"]).1 (by decide) (by decide)

/-- Claim C1.  Under the `Raise` collision policy, a non-empty collision set
aborts the whole run with an error carrying the full colliding set (every
requested name that already exists at the destination), and the trace is
empty: no `recreate_collection`, no `create_payload_index`, no
`upload_records` is issued. -/
theorem migrate_raise_aborts (src dest : Client) (req : Option (List String))
    (batch : Nat) (names : List String)
    (hsel : select_source_collections src req = .ok names)
    (hcol : find_collisions dest names ≠ []) :
    migrate src dest req .RAISE batch =
      ([], .error (.collision (find_collisions dest names))) ∧
    (∀ x, x ∈ find_collisions dest names ↔ (x ∈ names ∧ x ∈ dest.collections)) := by
  constructor
  · simp only [migrate, hsel]
    rw [if_pos ⟨hcol, trivial⟩]
  · intro x
    simp only [find_collisions, List.mem_filter, List.mem_dedup, decide_eq_true_eq]
    exact and_comm

/-- A source holding collections `a` and `b`, for the collision witnesses. -/
def collisionSource : Client :=
  { collections := ["a", "b"]
    records := fun _ => [⟨1⟩]
    payloadSchema := fun _ => []
    reportedCount := fun _ => 1 }

/-- A destination already holding collection `b`, for the collision
witnesses. -/
def collisionDest : Client :=
  { collections := ["b"]
    records := fun _ => []
    payloadSchema := fun _ => []
    reportedCount := fun _ => 1 }

/-- Witness for claim C1: migrating `["a", "b"]` onto a destination already
holding `b` under the `Raise` policy aborts with the colliding set and an
empty trace. -/
theorem migrate_raise_aborts_witness :
    migrate collisionSource collisionDest (some ["a", "b"]) .RAISE 2 =
      ([], .error (.collision (find_collisions collisionDest ["a", "b"]))) :=
  (migrate_raise_aborts collisionSource collisionDest (some ["a", "b"]) 2 ["a", "b"]
    rfl (by decide)).1

/-- Claim C8.  Under the `Skip` collision policy (with every per-collection
count check passing), the run succeeds and writes exactly the non-colliding
requested collections: a collection is recreated exactly when it is a
requested, non-colliding one; every issued call addresses a requested,
non-colliding collection (so no colliding collection is written); and every
requested non-colliding collection has its data uploaded. -/
theorem migrate_skip_writes_exactly_noncolliding (src dest : Client)
    (req : Option (List String)) (batch : Nat) (names : List String)
    (hsel : select_source_collections src req = .ok names)
    (hcnt : ∀ n, src.reportedCount n = dest.reportedCount n) :
    (migrate src dest req .SKIP batch).2 = .ok () ∧
    (∀ c, Event.recreateCollection c ∈ (migrate src dest req .SKIP batch).1 ↔
      (c ∈ names ∧ c ∉ find_collisions dest names)) ∧
    (∀ e ∈ (migrate src dest req .SKIP batch).1,
      e.collection ∈ names ∧ e.collection ∉ find_collisions dest names) ∧
    (∀ c ∈ names, c ∉ find_collisions dest names →
      Event.uploadRecords c (src.scroll c none batch).1 ∈
        (migrate src dest req .SKIP batch).1) := by
  have hco : (if find_collisions dest names ≠ [] ∧ True
      then ([] : List String) else find_collisions dest names) = [] := by
    by_cases hc : find_collisions dest names = [] <;> simp [hc]
  have habs := migrateMany_snd_ok (b := batch) hcnt
    (names.dedup.filter (fun n => n ∉ find_collisions dest names))
  have hmig : migrate src dest req .SKIP batch =
      ((migrateMany src dest batch
          (names.dedup.filter (fun n => n ∉ find_collisions dest names))).1,
        .ok ()) := by
    simp only [migrate, hsel]
    rw [if_neg (fun hctr => MigrationCollisionAction.noConfusion hctr.2), hco, habs]
    simp [migrateMany]
  have hmem_abs : ∀ c : String,
      c ∈ names.dedup.filter (fun n => n ∉ find_collisions dest names) ↔
        (c ∈ names ∧ c ∉ find_collisions dest names) := by
    intro c
    simp [List.mem_filter, List.mem_dedup]
  rw [hmig]
  refine ⟨rfl, ?_, ?_, ?_⟩
  · intro c
    rw [mem_migrateMany_fst hcnt]
    constructor
    · rintro ⟨c', hc', hre | htr⟩
      · rcases recreate_mem_recreate_iff.mp hre with rfl
        exact (hmem_abs c).mp hc'
      · exact absurd htr recreate_not_mem_trace
    · intro hc
      exact ⟨c, (hmem_abs c).mpr hc, Or.inl (recreate_mem_recreate_iff.mpr rfl)⟩
  · intro e he
    rcases (mem_migrateMany_fst hcnt _ e).mp he with ⟨c', hc', hre | htr⟩
    · rw [collection_of_mem_recreate hre]
      exact (hmem_abs c').mp hc'
    · rw [collection_of_mem_trace htr]
      exact (hmem_abs c').mp hc'
  · intro c hc1 hc2
    exact (mem_migrateMany_fst hcnt _ _).mpr
      ⟨c, (hmem_abs c).mpr ⟨hc1, hc2⟩, Or.inr first_upload_mem_trace⟩

/-- A source holding collections `a` and `b` with one record each, for the
skip-policy witness. -/
def skipSource : Client :=
  { collections := ["a", "b"]
    records := fun _ => [⟨1⟩]
    payloadSchema := fun _ => []
    reportedCount := fun _ => 1 }

/-- A destination already holding collection `b` and reporting matching
counts, for the skip-policy witness. -/
def skipDest : Client :=
  { collections := ["b"]
    records := fun _ => []
    payloadSchema := fun _ => []
    reportedCount := fun _ => 1 }

/-- Witness for claim C8: migrating `["a", "b"]` onto a destination already
holding `b` under the `Skip` policy completes successfully. -/
theorem migrate_skip_writes_exactly_noncolliding_witness :
    (migrate skipSource skipDest (some ["a", "b"]) .SKIP 2).2 = .ok () :=
  (migrate_skip_writes_exactly_noncolliding skipSource skipDest (some ["a", "b"]) 2
    ["a", "b"] rfl (fun _ => rfl)).1
